import Mathlib

/-!
Shallow embedding of `bot.py` (a Discord moderation bot) for verification.

Python dictionaries are embedded as association lists with unique keys
(`alGet` returns the first binding; `alSet` updates the first binding or
appends; `alRemove` drops the key).  Timestamps are embedded as `Int`
(`time.time()` is a real clock; only differences `now - t ≤ window` are
observed, so integer instants are faithful).  External platform calls
(role mutation, message sending) are embedded as explicit effect values
or as `Except`-valued parameters where the code branches on their
success.
-/

namespace LCU

/-- First binding for `k` in an association list (Python `dict` lookup). -/
def alGet {κ α : Type} [DecidableEq κ] : List (κ × α) → κ → Option α
  | [], _ => none
  | (k, v) :: rest, key => if k = key then some v else alGet rest key

/-- Update the binding for `key`, or append it (Python `d[key] = v`). -/
def alSet {κ α : Type} [DecidableEq κ] : List (κ × α) → κ → α → List (κ × α)
  | [], key, v => [(key, v)]
  | (k, w) :: rest, key, v =>
      if k = key then (key, v) :: rest else (k, w) :: alSet rest key v

/-- Remove the binding for `key` (Python `d.pop(key, None)`; dict keys are
unique, so dropping every occurrence is the same as dropping the first). -/
def alRemove {κ α : Type} [DecidableEq κ] (m : List (κ × α)) (key : κ) :
    List (κ × α) :=
  m.filter (fun p => decide (p.1 ≠ key))

/-! ### Anti-spam tracker (bot.py lines 62–116)

`SPAM_TRACK` is `{guild_id: {user_id: [timestamps]}}`; `SPAM_THRESHOLD`
and `SPAM_WINDOW` are process-wide integers read from the environment
(defaults 6 and 8). -/

abbrev UserMap := List (Int × List Int)
abbrev Track := List (Int × UserMap)

/-- The two process-wide anti-spam knobs (`SPAM_THRESHOLD`, `SPAM_WINDOW`). -/
structure SpamConfig where
  threshold : Int
  window : Int
deriving DecidableEq, Repr

def defaultSpamConfig : SpamConfig := ⟨6, 8⟩

/-- The fields of a `discord.Message` that `on_message` inspects. -/
structure Message where
  authorBot : Bool
  hasGuild : Bool
  gid : Int
  uid : Int
deriving DecidableEq, Repr

/-- `[t for t in stamps if now - t <= window]` (lines 72 and 96). -/
def pruneStamps (now window : Int) (stamps : List Int) : List Int :=
  stamps.filter (fun t => decide (now - t ≤ window))

/-- `SPAM_TRACK[gid][uid]` with `setdefault` semantics (missing ↦ `[]`). -/
def trackGet (track : Track) (gid uid : Int) : List Int :=
  (alGet ((alGet track gid).getD []) uid).getD []

/-- Store the actor's timestamp list back into the index
(`SPAM_TRACK.setdefault(gid, {}).setdefault(uid, [])` then assignment). -/
def trackSet (track : Track) (gid uid : Int) (stamps : List Int) : Track :=
  alSet track gid (alSet ((alGet track gid).getD []) uid stamps)

/-- The actor's window after an event: append `now`, then prune (line 94–96). -/
def freshWindow (cfg : SpamConfig) (track : Track) (gid uid : Int)
    (now : Int) : List Int :=
  pruneStamps now cfg.window (trackGet track gid uid ++ [now])

/-- The spam-tracking core of `on_message` (lines 86–113): bail out for bot
authors or guild-less messages; otherwise append `now`, prune, compare the
remaining count to the threshold, and on exceeding reset the actor's list to
`[]` (line 113).  The mute-role side effects (lines 98–112) go through the
external actuator and do not touch the index. -/
def onMessageSpam (cfg : SpamConfig) (track : Track) (m : Message)
    (now : Int) : Track × Bool :=
  if m.authorBot || !m.hasGuild then (track, false)
  else
    let pruned := freshWindow cfg track m.gid m.uid now
    let exceeded : Bool := decide (cfg.threshold ≤ (pruned.length : Int))
    (trackSet track m.gid m.uid (if exceeded then [] else pruned), exceeded)

/-- One pass of the per-guild inner loop of `anti_spam_cleaner`
(lines 71–74): prune every actor's stamps, delete actors left empty. -/
def cleanUserMap (now window : Int) (um : UserMap) : UserMap :=
  (um.map (fun p => (p.1, pruneStamps now window p.2))).filter
    (fun p => !p.2.isEmpty)

/-- `anti_spam_cleaner` (lines 67–74): iterate every guild entry and clean
its user map.  Guild entries themselves are never deleted. -/
def antiSpamCleaner (now window : Int) (track : Track) : Track :=
  track.map (fun p => (p.1, cleanUserMap now window p.2))

/-- Every timestamp left in the index is within `window` of `now`. -/
def trackAllFresh (now window : Int) (track : Track) : Bool :=
  track.all fun g => g.2.all fun u => u.2.all fun t =>
    decide (now - t ≤ window)

/-- No actor entry with an empty timestamp sequence remains. -/
def noEmptyActors (track : Track) : Bool :=
  track.all fun g => g.2.all fun u => !u.2.isEmpty

/-- No community entry with no actors remains. -/
def noEmptyCommunities (track : Track) : Bool :=
  track.all fun g => !g.2.isEmpty

/-! ### The durable store (bot.py lines 29–47)

`DATA` is a JSON document, persisted by `save_data` into
`security_data.json`. -/

/-- JSON values, as produced by `json.dump` / consumed by `json.load`. -/
inductive Json where
  | obj : List (String × Json) → Json
  | arr : List Json → Json
  | str : String → Json
  | num : Int → Json
  | null : Json

/-- The top-level `DATA` document: a JSON object. -/
abbrev Doc := List (String × Json)

/-- Fields of a JSON object (`[]` for non-objects; the Python code only ever
indexes values that are dicts — indexing anything else would raise). -/
def objFields : Json → List (String × Json)
  | .obj fs => fs
  | _ => []

/-- `d[k1][k2]` two-level lookup into the document. -/
def docGetPath2 (d : Doc) (k1 k2 : String) : Option Json :=
  alGet (objFields ((alGet d k1).getD .null)) k2

/-- `d[k1][k2][k3]` three-level lookup into the document. -/
def docGetPath3 (d : Doc) (k1 k2 k3 : String) : Option Json :=
  alGet (objFields ((docGetPath2 d k1 k2).getD .null)) k3

/-- The fresh `DATA` document written when no file exists (lines 32–38). -/
def initialData : Doc :=
  [("warnings", .obj []), ("jails", .obj []), ("backups", .obj []),
   ("tags", .obj []), ("config", .obj [])]

/-- A warning record `{"by": ..., "reason": ..., "time": ...}` (line 301). -/
def warnEntry (issuer : Int) (reason : String) (now : Int) : Json :=
  .obj [("by", .num issuer), ("reason", .str reason), ("time", .num now)]

/-- The store mutation of `warn_cmd` (lines 297–302):
`DATA["warnings"][gid][uid].append(entry)` with `setdefault` at each level. -/
def warnCmdStore (d : Doc) (gid uid issuer : Int) (reason : String)
    (now : Int) : Doc :=
  let warnings := objFields ((alGet d "warnings").getD (.obj []))
  let guildMap := objFields ((alGet warnings (toString gid)).getD (.obj []))
  let entries :=
    match (alGet guildMap (toString uid)).getD (.arr []) with
    | .arr xs => xs
    | _ => []
  alSet d "warnings"
    (.obj (alSet warnings (toString gid)
      (.obj (alSet guildMap (toString uid)
        (.arr (entries ++ [warnEntry issuer reason now]))))))

/-- The store mutation of `jail_cmd` (lines 640–642):
`DATA["jails"][str(member.id)] = {"guild": guild_id, "time": now}` — keyed by
the subject id directly, with the community id inside the record. -/
def jailCmdStore (d : Doc) (uid gid : Int) (now : Int) : Doc :=
  let jails := objFields ((alGet d "jails").getD (.obj []))
  alSet d "jails"
    (.obj (alSet jails (toString uid)
      (.obj [("guild", .num gid), ("time", .num now)])))

/-- The store mutation of `unjail_cmd` (line 660):
`DATA.get("jails", {}).pop(str(member.id), None)`. -/
def unjailStore (d : Doc) (uid : Int) : Doc :=
  match alGet d "jails" with
  | some (.obj fs) => alSet d "jails" (.obj (alRemove fs (toString uid)))
  | _ => d

/-! ### save_data and its filesystem trace (bot.py lines 45–47) -/

/-- The filesystem operations the persistence layer can perform.
`openWrite p` is `open(p, "w")`, which truncates `p` in place. -/
inductive FsOp where
  | openWrite : String → FsOp
  | write : String → String → FsOp
  | rename : String → String → FsOp
deriving DecidableEq, Repr

def DATA_FILE : String := "security_data.json"

/-- The trace of `save_data` (lines 45–47): open the durable file itself in
truncating write mode, then stream the serialized document into it.
(`json.dump` may write in several chunks; one `write` of the whole document
is the same trace up to chunk boundaries, which the claims do not observe.) -/
def saveDataTrace (doc : String) : List FsOp :=
  [.openWrite DATA_FILE, .write DATA_FILE doc]

/-- The path an operation touches (the destination, for a rename). -/
def fsOpTarget : FsOp → String
  | .openWrite p => p
  | .write p _ => p
  | .rename _ dst => dst

/-- Whether a trace performs any rename at all. -/
def hasRename (trace : List FsOp) : Bool :=
  trace.any fun op =>
    match op with
    | .rename _ _ => true
    | _ => false

/-- Modelled from the spec: "write the full document to a temporary location
and atomically rename over the previous durable file".  A trace is an atomic
replace of `durable` when no operation opens or writes `durable` directly
and the trace ends with a rename of some other path onto `durable`. -/
def isAtomicReplace (durable : String) (trace : List FsOp) : Bool :=
  (!trace.any fun op =>
    match op with
    | .openWrite p => p == durable
    | .write p _ => p == durable
    | .rename _ _ => false) &&
  (match trace.getLast? with
   | some (.rename src dst) => dst == durable && src != durable
   | _ => false)

/-! ### Temporary actions (bot.py lines 170–190 `tempban`,
272–288 `tempmute`)

Each command applies the action, replies, logs, then suspends in
`asyncio.sleep(duration)` and finally attempts the reversal, swallowing
reversal errors.  The whole body sits in one `try`; a failure of the apply
call jumps to the `except` branch, which sends a failure reply. -/

/-- Observable effects of a temp-action command invocation. -/
inductive ModEffect where
  | applyAct : String → ModEffect
  | replyOk : String → ModEffect
  | logged : ModEffect
  | sleep : Int → ModEffect
  | reverseAct : String → ModEffect
  | replyFail : String → ModEffect
deriving DecidableEq, Repr

/-- `tempban` (lines 170–190).  `banResult` is the outcome of `member.ban`;
`unbanOk` is whether the later `guild.unban` succeeds (its failure is
swallowed by the inner `try`/`except`, line 187–188). -/
def tempbanRun (banResult : Except String Unit) (duration : Int)
    (unbanOk : Bool) : List ModEffect :=
  match banResult with
  | .error e => [.replyFail ("Failed to tempban: " ++ e)]
  | .ok _ =>
      [.applyAct "ban", .replyOk "Temporarily banned", .logged,
       .sleep duration] ++ (if unbanOk then [.reverseAct "ban"] else [])

/-- `tempmute` (lines 272–288).  `muteResult` is the combined outcome of
`_ensure_muted_role` and `member.add_roles`; `removeOk` is whether the later
`member.remove_roles` succeeds (its failure is swallowed, lines 283–286). -/
def tempmuteRun (muteResult : Except String Unit) (seconds : Int)
    (removeOk : Bool) : List ModEffect :=
  match muteResult with
  | .error e => [.replyFail ("Failed to tempmute: " ++ e)]
  | .ok _ =>
      [.applyAct "mute", .replyOk "Temporarily muted", .logged,
       .sleep seconds] ++ (if removeOk then [.reverseAct "mute"] else [])

/-- Whether any reversal effect was ever attempted. -/
def hasReverse (effs : List ModEffect) : Bool :=
  effs.any fun e =>
    match e with
    | .reverseAct _ => true
    | _ => false

/-- Whether a reversal was scheduled (the command reached `asyncio.sleep`). -/
def hasSleep (effs : List ModEffect) : Bool :=
  effs.any fun e =>
    match e with
    | .sleep _ => true
    | _ => false

/-! ### Scheduler-level view of temp actions

A successful `tempban`/`tempmute` invocation leaves one coroutine suspended
in `asyncio.sleep`, which will later attempt the reversal.  Neither command
consults any registry of pending reversals, cancels anything, or writes any
record to `DATA`; so at the scheduler level an invocation appends one
pending reversal and leaves the store untouched. -/

/-- The `(community, subject, kind)` key of a temporary action. -/
structure TempKey where
  community : Int
  subject : Int
  kind : String
deriving DecidableEq, Repr

/-- Scheduler state: the pending reversals (one per suspended coroutine,
with its fire time) and the durable document. -/
structure Sched where
  pending : List (TempKey × Int)
  store : Doc

/-- The scheduler-state effect of one successful temp-action invocation:
a new `asyncio.sleep` coroutine is created unconditionally (lines 179 and
282); no existing timer is cancelled and `DATA` is not written. -/
def scheduleTemp (s : Sched) (k : TempKey) (reversesAt : Int) : Sched :=
  { s with pending := s.pending ++ [(k, reversesAt)] }

/-- How many pending reversals exist for a key. -/
def pendingFor (s : Sched) (k : TempKey) : Nat :=
  (s.pending.filter (fun p => decide (p.1 = k))).length

/-! ### unjail (bot.py lines 649–662) -/

/-- Observable effects of `unjail_cmd` besides the store mutation. -/
inductive UnjailEffect where
  | removeRoleAttempt : Bool → UnjailEffect
  | save : UnjailEffect
  | reply : String → UnjailEffect
deriving DecidableEq, Repr

/-- `unjail_cmd` (lines 649–662): if a "Jailed" role exists, attempt to
remove it, swallowing any error (`try`/`except: pass`); then pop the jail
record with a default (no error when absent), call `save_data`, and send
the success reply.  `roleExists` and `removeRoleOk` describe the platform's
behaviour; neither changes the store outcome or the reply. -/
def unjailRun (d : Doc) (uid : Int) (roleExists removeRoleOk : Bool) :
    Doc × List UnjailEffect :=
  (unjailStore d uid,
   (if roleExists then [UnjailEffect.removeRoleAttempt removeRoleOk]
    else []) ++ [UnjailEffect.save, UnjailEffect.reply "Unjailed"])

/-! ### antispam configuration (bot.py lines 449–456) -/

/-- Process state relevant to anti-spam: the two module-level globals and
the tracking index. -/
structure BotState where
  spamThreshold : Int
  spamWindow : Int
  track : Track
deriving Repr

/-- `antispam_cmd` (lines 449–456): assigns the module-level globals
`SPAM_THRESHOLD`/`SPAM_WINDOW` and replies with a confirmation.  The
command performs no validation and never reads which guild invoked it
(`gid` is carried only to state per-community claims about it). -/
def antispamCmd (s : BotState) (gid : Int) (threshold window : Int) :
    BotState × String :=
  ({ s with spamThreshold := threshold, spamWindow := window },
   "Anti-spam set: " ++ toString threshold ++ " msgs / " ++
     toString window ++ "s")

/-- `on_message` at the process level: the spam check reads the current
globals (lines 96–97). -/
def onMessageState (s : BotState) (m : Message) (now : Int) :
    BotState × Bool :=
  let r := onMessageSpam ⟨s.spamThreshold, s.spamWindow⟩ s.track m now
  ({ s with track := r.1 }, r.2)

/-! ## Helper lemmas -/

theorem alGet_alSet_self {κ α : Type} [DecidableEq κ]
    (m : List (κ × α)) (k : κ) (v : α) : alGet (alSet m k v) k = some v := by
  induction m with
  | nil => simp [alSet, alGet]
  | cons p rest ih =>
      by_cases h : p.1 = k
      · simp [alSet, alGet, h]
      · simpa [alSet, alGet, h] using ih

theorem alGet_alRemove_self {κ α : Type} [DecidableEq κ]
    (m : List (κ × α)) (k : κ) : alGet (alRemove m k) k = none := by
  induction m with
  | nil => simp [alRemove, alGet]
  | cons p rest ih =>
      by_cases h : p.1 = k
      · simpa [alRemove, List.filter, h] using ih
      · simpa [alRemove, List.filter, h, alGet] using ih

theorem trackGet_trackSet (track : Track) (gid uid : Int)
    (stamps : List Int) :
    trackGet (trackSet track gid uid stamps) gid uid = stamps := by
  unfold trackGet trackSet
  rw [alGet_alSet_self]
  simp [alGet_alSet_self]

/-! ## Claim theorems -/

/-- C1: for a message by a non-bot actor inside a community, `on_message`
appends the event's timestamp to the actor's sequence, discards timestamps
older than the configured window, signals exceeded exactly when the
remaining count is at least the configured threshold, and immediately after
signaling exceeded leaves the actor's timestamp sequence empty. -/
theorem spam_detector_appends_prunes_signals_and_resets
    (cfg : SpamConfig) (track : Track) (m : Message) (now : Int)
    (hb : m.authorBot = false) (hg : m.hasGuild = true) :
    ((onMessageSpam cfg track m now).2 = true ↔
        cfg.threshold ≤ ((freshWindow cfg track m.gid m.uid now).length : Int))
    ∧ ((onMessageSpam cfg track m now).2 = true →
        trackGet (onMessageSpam cfg track m now).1 m.gid m.uid = [])
    ∧ ((onMessageSpam cfg track m now).2 = false →
        trackGet (onMessageSpam cfg track m now).1 m.gid m.uid
          = freshWindow cfg track m.gid m.uid now) := by
  have hr : onMessageSpam cfg track m now =
      (trackSet track m.gid m.uid
        (if decide (cfg.threshold ≤
              ((freshWindow cfg track m.gid m.uid now).length : Int))
         then [] else freshWindow cfg track m.gid m.uid now),
       decide (cfg.threshold ≤
         ((freshWindow cfg track m.gid m.uid now).length : Int))) := by
    simp [onMessageSpam, hb, hg]
  rw [hr]
  by_cases h : cfg.threshold ≤
      ((freshWindow cfg track m.gid m.uid now).length : Int)
  · simp [h, trackGet_trackSet]
  · simp [h, trackGet_trackSet]

/-- Witness for C1 at a concrete event: one message by user 2 in guild 1 at
time 0 against the default configuration. -/
theorem spam_detector_appends_prunes_signals_and_resets_witness :
    ((onMessageSpam ⟨6, 8⟩ [] ⟨false, true, 1, 2⟩ 0).2 = true ↔
        (6 : Int) ≤ ((freshWindow ⟨6, 8⟩ [] 1 2 0).length : Int))
    ∧ ((onMessageSpam ⟨6, 8⟩ [] ⟨false, true, 1, 2⟩ 0).2 = true →
        trackGet (onMessageSpam ⟨6, 8⟩ [] ⟨false, true, 1, 2⟩ 0).1 1 2 = [])
    ∧ ((onMessageSpam ⟨6, 8⟩ [] ⟨false, true, 1, 2⟩ 0).2 = false →
        trackGet (onMessageSpam ⟨6, 8⟩ [] ⟨false, true, 1, 2⟩ 0).1 1 2
          = freshWindow ⟨6, 8⟩ [] 1 2 0) :=
  spam_detector_appends_prunes_signals_and_resets
    ⟨6, 8⟩ [] ⟨false, true, 1, 2⟩ 0 rfl rfl

/-- C10: a message whose author is a bot, or which has no guild, leaves the
spam-tracking index completely unchanged and signals nothing. -/
theorem on_message_ignores_bots_and_guildless
    (cfg : SpamConfig) (track : Track) (m : Message) (now : Int)
    (h : m.authorBot = true ∨ m.hasGuild = false) :
    onMessageSpam cfg track m now = (track, false) := by
  rcases h with h | h <;> simp [onMessageSpam, h]

/-- Witness for C10: a bot-authored message in a guild with existing
tracking state changes nothing. -/
theorem on_message_ignores_bots_and_guildless_witness :
    onMessageSpam ⟨6, 8⟩ [(1, [(2, [5])])] ⟨true, true, 1, 2⟩ 9
      = ([(1, [(2, [5])])], false) :=
  on_message_ignores_bots_and_guildless
    ⟨6, 8⟩ [(1, [(2, [5])])] ⟨true, true, 1, 2⟩ 9 (Or.inl rfl)

/-- C4 counterexample: sweeping the index `{1: {2: [0]}}` at time 100 with
window 8 evicts the stale stamp and the empty actor, but leaves community 1
behind with no actors — refuting "no community entry with no actors
remains". -/
theorem sweep_keeps_empty_community_cx :
    antiSpamCleaner 100 8 [(1, [(2, [0])])] = [(1, [])]
    ∧ noEmptyCommunities (antiSpamCleaner 100 8 [(1, [(2, [0])])]) = false := by
  exact ⟨by decide, by decide⟩

/-- C4 (amended): after a sweep no remaining timestamp is older than the
window and no actor entry with an empty sequence remains; community entries
are never removed (the sweep preserves the community key list exactly, so a
community left with no actors persists). -/
theorem sweep_evicts_stale_stamps_and_empty_actors
    (now window : Int) (track : Track) :
    trackAllFresh now window (antiSpamCleaner now window track) = true
    ∧ noEmptyActors (antiSpamCleaner now window track) = true
    ∧ (antiSpamCleaner now window track).map Prod.fst
        = track.map Prod.fst := by
  refine ⟨?_, ?_, ?_⟩
  · simp only [trackAllFresh, List.all_eq_true, antiSpamCleaner]
    intro g hg
    rcases List.mem_map.mp hg with ⟨p, hp, rfl⟩
    dsimp only
    intro u hu
    simp only [cleanUserMap] at hu
    rcases List.mem_filter.mp hu with ⟨hu1, hu2⟩
    rcases List.mem_map.mp hu1 with ⟨q, hq, rfl⟩
    dsimp only
    intro t ht
    simp only [pruneStamps] at ht
    exact (List.mem_filter.mp ht).2
  · simp only [noEmptyActors, List.all_eq_true, antiSpamCleaner]
    intro g hg
    rcases List.mem_map.mp hg with ⟨p, hp, rfl⟩
    dsimp only
    intro u hu
    simp only [cleanUserMap] at hu
    exact (List.mem_filter.mp hu).2
  · simp [antiSpamCleaner]

/-- C2 counterexample: the trace of `save_data` opens the durable file
itself in truncating write mode as its very first operation and performs no
rename, so it is not an atomic temp-write-and-rename. -/
theorem save_data_writes_durable_in_place_cx :
    (saveDataTrace "{}").head? = some (.openWrite DATA_FILE)
    ∧ hasRename (saveDataTrace "{}") = false
    ∧ isAtomicReplace DATA_FILE (saveDataTrace "{}") = false := by
  exact ⟨rfl, rfl, rfl⟩

/-- C2 (amended): `save_data` persists by opening the durable file itself
in truncating write mode and writing the full document in place; it writes
no temporary file and performs no rename, so the save is not an atomic
replace and a crash mid-write can leave the durable file truncated. -/
theorem save_data_in_place_not_atomic_replace (doc : String) :
    (saveDataTrace doc).head? = some (.openWrite DATA_FILE)
    ∧ (saveDataTrace doc).all (fun op => fsOpTarget op == DATA_FILE) = true
    ∧ hasRename (saveDataTrace doc) = false
    ∧ isAtomicReplace DATA_FILE (saveDataTrace doc) = false := by
  exact ⟨rfl, rfl, rfl, rfl⟩

/-- C3 counterexample: scheduling two temporary mutes for the key
`(1, 42, mute)` from the fresh state leaves two pending reversals, not one,
and the store has no `tempactions` collection at all. -/
theorem temp_actions_stack_two_timers_no_record_cx :
    pendingFor
      (scheduleTemp (scheduleTemp ⟨[], initialData⟩ ⟨1, 42, "mute"⟩ 10)
        ⟨1, 42, "mute"⟩ 20) ⟨1, 42, "mute"⟩ = 2
    ∧ pendingFor
        (scheduleTemp (scheduleTemp ⟨[], initialData⟩ ⟨1, 42, "mute"⟩ 10)
          ⟨1, 42, "mute"⟩ 20) ⟨1, 42, "mute"⟩ ≠ 1
    ∧ alGet
        (scheduleTemp (scheduleTemp ⟨[], initialData⟩ ⟨1, 42, "mute"⟩ 10)
          ⟨1, 42, "mute"⟩ 20).store "tempactions" = none := by
  refine ⟨by decide, by decide, rfl⟩

/-- C3 (amended): scheduling a second temporary action for the same
`(community, subject, kind)` while one is pending does not cancel the first:
each invocation unconditionally appends one more independent pending
reversal, so both coexist, and no store record is written for either. -/
theorem schedule_temp_appends_and_stores_nothing
    (s : Sched) (k : TempKey) (t1 t2 : Int) :
    (scheduleTemp (scheduleTemp s k t1) k t2).pending
      = s.pending ++ [(k, t1), (k, t2)]
    ∧ (scheduleTemp (scheduleTemp s k t1) k t2).store = s.store
    ∧ pendingFor (scheduleTemp s k t1) k = pendingFor s k + 1 := by
  refine ⟨by simp [scheduleTemp], rfl, ?_⟩
  simp [pendingFor, scheduleTemp, List.filter_append]

/-- C5 counterexample: from the default configuration, configuring
anti-spam "in" community 1 (threshold 1) changes the verdict for a first
message by user 5 in community 2 from not-exceeded to exceeded, so other
communities do not behave as if community 1 had not been configured. -/
theorem antispam_config_affects_other_community_cx :
    (onMessageState (antispamCmd ⟨6, 8, []⟩ 1 1 8).1
        ⟨false, true, 2, 5⟩ 0).2 = true
    ∧ (onMessageState ⟨6, 8, []⟩ ⟨false, true, 2, 5⟩ 0).2 = false := by
  exact ⟨rfl, rfl⟩

/-- C5 (amended): the anti-spam configuration is process-global, not
per-community: the command's effect is independent of which community
issues it, it installs the new threshold and window immediately without
touching the tracking index, and every subsequent event in every community
is judged against the newly installed values. -/
theorem antispam_config_is_process_global
    (s : BotState) (g g' threshold window : Int) (m : Message) (now : Int) :
    antispamCmd s g threshold window = antispamCmd s g' threshold window
    ∧ (antispamCmd s g threshold window).1.spamThreshold = threshold
    ∧ (antispamCmd s g threshold window).1.spamWindow = window
    ∧ (antispamCmd s g threshold window).1.track = s.track
    ∧ (onMessageState (antispamCmd s g threshold window).1 m now).2
        = (onMessageSpam ⟨threshold, window⟩ s.track m now).2 := by
  exact ⟨rfl, rfl, rfl, rfl, rfl⟩

/-- C6 counterexample: the durable document has no `tempactions`
collection, and the jail record written for subject 42 in community 7 is
not reachable under the community id — it sits directly under the subject
id, with the community stored inside the record. -/
theorem store_missing_tempactions_and_jail_not_under_community_cx :
    alGet initialData "tempactions" = none
    ∧ docGetPath3 (jailCmdStore initialData 42 7 0) "jails" "7" "42" = none
    ∧ docGetPath2 (jailCmdStore initialData 42 7 0) "jails" "42"
        = some (.obj [("guild", .num 7), ("time", .num 0)]) := by
  exact ⟨rfl, rfl, rfl⟩

/-- C6 (amended): the durable document's top-level collections are exactly
`warnings`, `jails`, `backups`, `tags`, `config` — there is no
`tempactions` collection.  Warnings are keyed by community id then subject
id, mapping to an ordered list that each warning is appended to; jail
records, however, are keyed directly by subject id with the community id
stored inside the record. -/
theorem store_layout_warnings_nested_jails_flat
    (d : Doc) (gid uid issuer : Int) (reason : String) (now : Int) :
    initialData.map Prod.fst
      = ["warnings", "jails", "backups", "tags", "config"]
    ∧ (∃ xs, docGetPath3 (warnCmdStore d gid uid issuer reason now)
        "warnings" (toString gid) (toString uid)
          = some (.arr (xs ++ [warnEntry issuer reason now])))
    ∧ docGetPath2 (jailCmdStore d uid gid now) "jails" (toString uid)
        = some (.obj [("guild", .num gid), ("time", .num now)]) := by
  refine ⟨rfl, ?_, ?_⟩
  · simp only [warnCmdStore, docGetPath3, docGetPath2, alGet_alSet_self,
      Option.getD_some, objFields]
    exact ⟨_, rfl⟩
  · simp [jailCmdStore, docGetPath2, alGet_alSet_self, objFields]

/-- C7 counterexample: configuring anti-spam with threshold 0 is not
rejected: the global threshold becomes 0 and the caller receives the
ordinary success reply, not an error. -/
theorem antispam_accepts_zero_threshold_cx :
    (antispamCmd ⟨6, 8, []⟩ 1 0 8).1.spamThreshold = 0
    ∧ (antispamCmd ⟨6, 8, []⟩ 1 0 8).2 = "Anti-spam set: 0 msgs / 8s" := by
  exact ⟨rfl, by decide⟩

/-- C7 (amended): the anti-spam command performs no validation at all: a
zero or negative threshold or window is silently installed as the effective
configuration and the ordinary success reply is returned. -/
theorem antispam_no_validation_installs_any_values
    (s : BotState) (g threshold window : Int)
    (h : threshold ≤ 0 ∨ window ≤ 0) :
    (antispamCmd s g threshold window).1.spamThreshold = threshold
    ∧ (antispamCmd s g threshold window).1.spamWindow = window
    ∧ (antispamCmd s g threshold window).2
        = "Anti-spam set: " ++ toString threshold ++ " msgs / " ++
            toString window ++ "s" := by
  exact ⟨rfl, rfl, rfl⟩

/-- Witness for C7 (amended) at threshold 0, window 8. -/
theorem antispam_no_validation_installs_any_values_witness :
    (antispamCmd ⟨6, 8, []⟩ 1 0 8).1.spamThreshold = 0
    ∧ (antispamCmd ⟨6, 8, []⟩ 1 0 8).1.spamWindow = 8
    ∧ (antispamCmd ⟨6, 8, []⟩ 1 0 8).2
        = "Anti-spam set: " ++ toString (0 : Int) ++ " msgs / " ++
            toString (8 : Int) ++ "s" :=
  antispam_no_validation_installs_any_values
    ⟨6, 8, []⟩ 1 0 8 (Or.inl (by decide))

/-- C8: for both temporary-action commands, a failing apply call makes the
command reply with the failure and terminate without ever reaching
`asyncio.sleep` or the reverse call; when the apply succeeds it is the
first effect performed. -/
theorem temp_action_apply_failure_surfaces_and_skips_reversal
    (e : String) (dur secs : Int) (unbanOk removeOk : Bool) :
    tempbanRun (.error e) dur unbanOk
      = [.replyFail ("Failed to tempban: " ++ e)]
    ∧ hasReverse (tempbanRun (.error e) dur unbanOk) = false
    ∧ hasSleep (tempbanRun (.error e) dur unbanOk) = false
    ∧ (tempbanRun (.ok ()) dur unbanOk).head? = some (.applyAct "ban")
    ∧ tempmuteRun (.error e) secs removeOk
        = [.replyFail ("Failed to tempmute: " ++ e)]
    ∧ hasReverse (tempmuteRun (.error e) secs removeOk) = false
    ∧ hasSleep (tempmuteRun (.error e) secs removeOk) = false
    ∧ (tempmuteRun (.ok ()) secs removeOk).head? = some (.applyAct "mute") := by
  exact ⟨rfl, rfl, rfl, rfl, rfl, rfl, rfl, rfl⟩

/-- C9: `unjail` always removes the subject's durable jail record, saves
the store, and replies with success — whether or not a Jailed role exists
and whether or not removing it succeeds; the resulting store does not
depend on the platform-side outcome. -/
theorem unjail_always_clears_record_saves_and_reports_success
    (d : Doc) (uid : Int) (roleExists removeRoleOk : Bool) :
    docGetPath2 (unjailRun d uid roleExists removeRoleOk).1 "jails"
      (toString uid) = none
    ∧ UnjailEffect.save ∈ (unjailRun d uid roleExists removeRoleOk).2
    ∧ UnjailEffect.reply "Unjailed" ∈ (unjailRun d uid roleExists removeRoleOk).2
    ∧ (unjailRun d uid roleExists removeRoleOk).1
        = (unjailRun d uid true false).1 := by
  refine ⟨?_, ?_, ?_, rfl⟩
  · show docGetPath2 (unjailStore d uid) "jails" (toString uid) = none
    unfold unjailStore
    cases hj : alGet d "jails" with
    | none => simp [docGetPath2, hj, objFields, alGet]
    | some j =>
        cases j with
        | obj fs =>
            simp [docGetPath2, alGet_alSet_self, objFields,
              alGet_alRemove_self]
        | arr xs => simp [docGetPath2, hj, objFields, alGet]
        | str s => simp [docGetPath2, hj, objFields, alGet]
        | num n => simp [docGetPath2, hj, objFields, alGet]
        | null => simp [docGetPath2, hj, objFields, alGet]
  · cases roleExists <;> simp [unjailRun]
  · cases roleExists <;> simp [unjailRun]

end LCU
